import Mathlib

/-!
Shallow embedding of the Flask face-matching service (src/flask_docker/app.py).

The endpoint `upload_and_match` is modelled as a pure function over a
`Request` (the multipart parts) and an `Env` collecting every external
collaborator used by the handler: the JSON parser, the filesystem, the
save/move operations (which may raise), and the face-recognition library
calls (image loading + encoding, `compare_faces`, `face_distance`).
Python floats are modelled by explicit fractions (`PyFloat`, mapped to `ℚ`
for order reasoning); exceptions by `Except`/`Option`.
-/

namespace FaceApp

/-- JSON values, as produced by `json.loads`. -/
inductive Json where
  | null
  | bool (b : Bool)
  | num (q : ℚ)
  | str (s : String)
  | arr (elems : List Json)
  | obj (entries : List (String × Json))

/-- The Python exceptions that can arise while turning `json_data` into the
`selected_photos` dict: `json.JSONDecodeError` from `json.loads`, `KeyError`
from taking the name or id field of a dict lacking that key, `TypeError`
from subscripting or iterating a non-dict / non-iterable, or from an
unhashable dict key.  The handler catches only the first two. -/
inductive PyExc where
  | jsonDecodeError
  | keyError
  | typeError
deriving DecidableEq

/-- Model of `str.startswith(p)` (computed on the character list so the
kernel can evaluate it). -/
def pyStartsWith (s p : String) : Bool := p.data.isPrefixOf s.data

/-- Model of `str.endswith(suffix)`. -/
def pyEndsWith (s suffix : String) : Bool := suffix.data.reverse.isPrefixOf s.data.reverse

/-- Model of `os.path.join` for the two-argument calls the handler makes. -/
def joinPath (a b : String) : String :=
  if pyStartsWith b "/" then b
  else if pyEndsWith a "/" ∨ a = "" then a ++ b
  else a ++ "/" ++ b

def BASE_DIR : String := "/app"
def BULK_FOLDER : String := joinPath BASE_DIR "bulk"
def SINGLE_FOLDER : String := joinPath BASE_DIR "single"
def PROCESSED_FOLDER : String := joinPath BASE_DIR "processed"

def singleImagePath (filename : String) : String := joinPath SINGLE_FOLDER filename
def processedImagePath (filename : String) : String := joinPath PROCESSED_FOLDER filename
def bulkImagePath (name : String) : String := joinPath BULK_FOLDER name

/-- Model of `str.lower()` (ASCII, which covers the extension check). -/
def pyLower (s : String) : String := String.mk (s.data.map Char.toLower)

/-- The check `filename.lower().endswith((".jpg", ".jpeg", ".png"))`. -/
def allowedExt (filename : String) : Bool :=
  pyEndsWith (pyLower filename) ".jpg" || pyEndsWith (pyLower filename) ".jpeg" ||
    pyEndsWith (pyLower filename) ".png"

/-- A real number as an explicit fraction: the model of the Python floats
flowing through the handler (face distances, thresholds, confidences).
The denominator is a positive natural, the operations work on the raw
fraction, and `toRat` maps into `ℚ` for order reasoning. -/
structure PyFloat where
  num : ℤ
  den : ℕ+
deriving DecidableEq

def PyFloat.ofInt (n : ℤ) : PyFloat := ⟨n, 1⟩

def PyFloat.sub (a b : PyFloat) : PyFloat :=
  ⟨a.num * ((b.den : ℕ) : ℤ) - b.num * ((a.den : ℕ) : ℤ), a.den * b.den⟩

def PyFloat.mul (a b : PyFloat) : PyFloat := ⟨a.num * b.num, a.den * b.den⟩

/-- The strict-order comparison `a < b` on fractions (denominators are
positive, so cross-multiplication preserves order). -/
def PyFloat.lt (a b : PyFloat) : Prop :=
  a.num * ((b.den : ℕ) : ℤ) < b.num * ((a.den : ℕ) : ℤ)

instance (a b : PyFloat) : Decidable (a.lt b) := Int.decLt _ _

/-- The Python binary `max(a, b)`: returns `b` only if it is strictly larger. -/
def PyFloat.max (a b : PyFloat) : PyFloat := if a.lt b then b else a

/-- The value of a `PyFloat` as a rational. -/
def PyFloat.toRat (a : PyFloat) : ℚ := (a.num : ℚ) / ((a.den : ℕ) : ℚ)

/-- Mathematical floor of the value. -/
def PyFloat.floor (a : PyFloat) : ℤ := Int.fdiv a.num ((a.den : ℕ) : ℤ)

/-- Round to the nearest integer, ties to even — the rounding used by
the Python fixed-point string formatting. -/
def roundHalfEven (x : PyFloat) : ℤ :=
  let f := x.floor
  let r := x.num - f * ((x.den : ℕ) : ℤ)
  if 2 * r < ((x.den : ℕ) : ℤ) then f
  else if ((x.den : ℕ) : ℤ) < 2 * r then f + 1
  else if f % 2 = 0 then f else f + 1

/-- Render a natural number, zero-padded to two digits. -/
def twoDigits (n : ℕ) : String := (if n < 10 then "0" else "") ++ Nat.repr n

/-- The Python two-decimal fixed format of a nonnegative value (the only values the
handler formats: `confidence = max(0, 1.0 - distance) * 100 ∈ [0, 100]`). -/
def formatFixed2 (x : PyFloat) : String :=
  let m := (roundHalfEven (x.mul (PyFloat.ofInt 100))).toNat
  Nat.repr (m / 100) ++ "." ++ twoDigits (m % 100)

/-- The constant `tolerance = 0.5`, the fixed `compare_faces` tolerance. -/
def tolerance : PyFloat := ⟨5, 10⟩

/-- The constant `distance_threshold = 0.4`, the additional strict distance gate. -/
def distance_threshold : PyFloat := ⟨4, 10⟩

/-- The value `confidence = max(0, (1.0 - distance)) * 100`. -/
def confidenceOf (distance : PyFloat) : PyFloat :=
  (PyFloat.max (PyFloat.ofInt 0) ((PyFloat.ofInt 1).sub distance)).mul (PyFloat.ofInt 100)

/-- Split a character list on a separator character. -/
def splitChar (c : Char) : List Char → List (List Char)
  | [] => [[]]
  | x :: xs =>
    match splitChar c xs with
    | [] => [[]]
    | r :: rs => if x = c then [] :: r :: rs else (x :: r) :: rs

/-- Resolution of `.` and `..` components in an absolute path, as the
operating system resolves the paths the handler hands to `open`/`save`.
Used to state where a saved file actually lands. -/
def normalizePath (p : String) : String :=
  let comps := (splitChar '/' p.data).filter (fun c => ¬ (c = [] ∨ c = ['.']))
  let resolved := comps.foldl (fun acc c => if c = ['.', '.'] then acc.dropLast else acc ++ [c]) []
  "/" ++ String.intercalate "/" (resolved.map String.mk)

/-! ### `json_data` parsing: the dict comprehension at line 58 -/

/-- Python equality on hashable (scalar) JSON values; array/object values are
never valid dict keys, so the comparison is only consulted on scalars. -/
def scalarEq : Json → Json → Bool
  | .null, .null => true
  | .bool a, .bool b => a = b
  | .num a, .num b => a = b
  | .str a, .str b => a = b
  | _, _ => false

/-- Whether a JSON value is hashable, i.e. usable as a Python dict key. -/
def hashableJson : Json → Bool
  | .arr _ => false
  | .obj _ => false
  | _ => true

/-- Subscripting `item[k]` for a JSON value: `KeyError` on a dict lacking
the key, `TypeError` on anything that is not a dict. -/
def getItem : Json → String → Except PyExc Json
  | .obj entries, k =>
    match (entries.filter (fun e => e.1 = k)).getLast? with
    | some e => .ok e.2
    | none => .error .keyError
  | _, _ => .error .typeError

/-- Iteration `for item in photo_data`: lists yield their elements, strings
their characters, dicts their keys; other values raise `TypeError`. -/
def pyIter : Json → Except PyExc (List Json)
  | .arr xs => .ok xs
  | .str s => .ok (s.data.map (fun c => .str (String.mk [c])))
  | .obj entries => .ok (entries.map (fun e => .str e.1))
  | _ => .error .typeError

/-- Insertion into a Python dict: an existing key keeps its position and gets
the new value, a new key goes to the end. -/
def pyDictInsert (d : List (Json × Json)) (k v : Json) : List (Json × Json) :=
  if d.any (fun e => scalarEq e.1 k) then
    d.map (fun e => if scalarEq e.1 k then (e.1, v) else e)
  else d ++ [(k, v)]

/-- The comprehension body: for each item take its name and id fields and
insert the pair, propagating the first exception raised. -/
def buildSelected (acc : List (Json × Json)) : List Json → Except PyExc (List (Json × Json))
  | [] => .ok acc
  | item :: rest =>
    match getItem item "name" with
    | .error e => .error e
    | .ok k =>
      match getItem item "id" with
      | .error e => .error e
      | .ok v =>
        if hashableJson k then buildSelected (pyDictInsert acc k v) rest
        else .error .typeError

/-- The dict comprehension building `selected_photos` from the parsed
`json_data`, taking the name and id field of each item, with `jsonParse`
standing for `json.loads` (None = `JSONDecodeError`). -/
def parseSelected (jsonParse : String → Option Json) (json_data : String) :
    Except PyExc (List (Json × Json)) :=
  match jsonParse json_data with
  | none => .error .jsonDecodeError
  | some photo_data =>
    match pyIter photo_data with
    | .error e => .error e
    | .ok items => buildSelected [] items

/-! ### Filesystem model: the set of existing paths -/

def fsContains (fs : List String) (p : String) : Bool :=
  match fs with
  | [] => false
  | q :: rest => if q = p then true else fsContains rest p

def fsAdd (fs : List String) (p : String) : List String :=
  if fsContains fs p then fs else p :: fs

def fsRemove (fs : List String) (p : String) : List String :=
  fs.filter (fun q => q ≠ p)

/-- Model of `shutil.move src dst` on the set of existing paths. -/
def fsMove (fs : List String) (src dst : String) : List String :=
  fsAdd (fsRemove fs src) dst

/-! ### Request, response and environment -/

structure UploadedFile where
  filename : String

structure Request where
  file : Option UploadedFile
  json_data : Option String

/-- One element of the `matches` list of a success response. -/
structure MatchResult where
  uploaded_face_index : ℕ
  matched_face_index_in_bulk : ℕ
  matched_file : String
  matched_id : Json
  confidence : String
  face_distance : PyFloat

/-- The observable HTTP outcome of the handler.  `error` carries the status and
the `error` body field; `success` is the 200 response (`matches` present only
when matches were found); `internalError` is the framework 500 for an
exception the handler does not catch. -/
inductive Response where
  | error (status : ℕ) (message : String)
  | success (message : String) (matchList : Option (List MatchResult)) (uploaded_file : String)
  | internalError

/-- Everything external the handler consults: `json.loads`, the initial
filesystem, fallible save/move (`some msg` = the exception text),
`load_image_file` + `face_encodings` per path (encodings as opaque ids), and
the two face-recognition library calls.  `compareFaces b s tol` models
`compare_faces([b], s, tolerance=tol)[0]` and `faceDistance b s` models
`face_distance([b], s)[0]`. -/
structure Env where
  jsonParse : String → Option Json
  fs0 : List String
  saveExc : String → Option String
  loadEnc : String → Except String (List ℕ)
  moveExc : String → String → Option String
  compareFaces : ℕ → ℕ → PyFloat → Bool
  faceDistance : ℕ → ℕ → PyFloat

/-! ### The matching loops (lines 90–122) -/

/-- The result dict appended at line 114 for the pair `(i, j)`. -/
def mkResult (env : Env) (image_file : String) (image_id : Json) (i j s b : ℕ) : MatchResult :=
  { uploaded_face_index := i
    matched_face_index_in_bulk := j
    matched_file := image_file
    matched_id := image_id
    confidence := formatFixed2 (confidenceOf (env.faceDistance b s)) ++ " %"
    face_distance := env.faceDistance b s }

/-- The body of the innermost loop: a singleton when
`match[0] and distance < distance_threshold`, else nothing. -/
def matchEntry (env : Env) (image_file : String) (image_id : Json) (i j s b : ℕ) :
    List MatchResult :=
  if env.compareFaces b s tolerance = true ∧ (env.faceDistance b s).lt distance_threshold then
    [mkResult env image_file image_id i j s b]
  else []

/-- Loop `for j, bulk_encoding in enumerate(bulk_encodings)`, starting at
index `j`. -/
def bulkLoop (env : Env) (image_file : String) (image_id : Json) (i s : ℕ) (j : ℕ) :
    List ℕ → List MatchResult
  | [] => []
  | b :: bs => matchEntry env image_file image_id i j s b ++
      bulkLoop env image_file image_id i s (j + 1) bs

/-- Loop `for i, single_encoding in enumerate(single_encodings)`, starting
at index `i`. -/
def singleLoop (env : Env) (image_file : String) (image_id : Json)
    (bulk_encodings : List ℕ) (i : ℕ) : List ℕ → List MatchResult
  | [] => []
  | s :: ss => bulkLoop env image_file image_id i s 0 bulk_encodings ++
      singleLoop env image_file image_id bulk_encodings (i + 1) ss

/-- All results recorded for one candidate image. -/
def pairResults (env : Env) (image_file : String) (image_id : Json)
    (single_encodings bulk_encodings : List ℕ) : List MatchResult :=
  singleLoop env image_file image_id bulk_encodings 0 single_encodings

/-- Loop `for image_file, image_id in selected_photos.items()`: skip a candidate
whose bulk file is missing, unreadable or faceless; raise `TypeError`
(uncaught) when the name is not a string, since `os.path.join` rejects it. -/
def candidateLoop (env : Env) (fs : List String) (single_encodings : List ℕ) :
    List (Json × Json) → Except PyExc (List MatchResult)
  | [] => .ok []
  | (name, image_id) :: rest =>
    match name with
    | .str image_file =>
      if fsContains fs (bulkImagePath image_file) then
        match env.loadEnc (bulkImagePath image_file) with
        | .error _ => candidateLoop env fs single_encodings rest
        | .ok bulk_encodings =>
          if bulk_encodings.isEmpty then candidateLoop env fs single_encodings rest
          else
            match candidateLoop env fs single_encodings rest with
            | .error e => .error e
            | .ok results =>
              .ok (pairResults env image_file image_id single_encodings bulk_encodings ++ results)
      else candidateLoop env fs single_encodings rest
    | _ => .error .typeError

/-! ### Validation (lines 40–62) and the full handler -/

/-- The four fail-fast validation checks.  On success it yields the file and
the parsed `selected_photos`; on failure, the response the handler returns
before touching the filesystem (a `TypeError` escaping the comprehension is
the uncaught-exception 500). -/
def validate (jsonParse : String → Option Json) (req : Request) :
    Except Response (UploadedFile × List (Json × Json)) :=
  match req.file, req.json_data with
  | some file, some json_data =>
    if file.filename = "" then .error (.error 400 "No selected file")
    else if ¬ allowedExt file.filename = true then
      .error (.error 400 "Invalid file type. Only .jpg, .jpeg, and .png are allowed.")
    else
      match parseSelected jsonParse json_data with
      | .error .typeError => .error .internalError
      | .error _ =>
        .error (.error 400 "Invalid JSON data. Each entry must include \x27name\x27 and \x27id\x27 fields.")
      | .ok selected_photos => .ok (file, selected_photos)
  | _, _ => .error (.error 400 "File and JSON data are required")

/-- Lines 64–145: everything after validation.  Returns the response and the
final filesystem. -/
def processValidated (env : Env) (file : UploadedFile)
    (selected_photos : List (Json × Json)) : Response × List String :=
  match env.saveExc (singleImagePath file.filename) with
  | some e => (.error 500 ("Failed to save uploaded file: " ++ e), env.fs0)
  | none =>
    match env.loadEnc (singleImagePath file.filename) with
    | .error e =>
      (.error 500 ("Failed to process the uploaded image: " ++ e),
        fsAdd env.fs0 (singleImagePath file.filename))
    | .ok single_encodings =>
      if single_encodings.isEmpty then
        (.error 400 "No face detected in the uploaded image",
          fsAdd env.fs0 (singleImagePath file.filename))
      else
        match candidateLoop env (fsAdd env.fs0 (singleImagePath file.filename))
            single_encodings selected_photos with
        | .error _ => (.internalError, fsAdd env.fs0 (singleImagePath file.filename))
        | .ok results =>
          match env.moveExc (singleImagePath file.filename) (processedImagePath file.filename) with
          | some e =>
            (.error 500 ("Failed to move processed image: " ++ e),
              fsAdd env.fs0 (singleImagePath file.filename))
          | none =>
            if results.isEmpty then
              (.success "No match found" none file.filename,
                fsMove (fsAdd env.fs0 (singleImagePath file.filename))
                  (singleImagePath file.filename) (processedImagePath file.filename))
            else
              (.success "Success! Matches found." (some results) file.filename,
                fsMove (fsAdd env.fs0 (singleImagePath file.filename))
                  (singleImagePath file.filename) (processedImagePath file.filename))

/-- The `/upload_and_match` POST handler. -/
def upload_and_match (env : Env) (req : Request) : Response × List String :=
  match validate env.jsonParse req with
  | .error r => (r, env.fs0)
  | .ok (file, selected_photos) => processValidated env file selected_photos

/-! ### Concrete test scenarios (the §8 scenario of the spec, and variants) -/

/-- A concrete `json.loads`: two well-formed candidate lists, an array whose
entry is the number `1`, and everything else a parse failure. -/
def jpA : String → Option Json := fun s =>
  if s = "good1" then
    some (.arr [.obj [("name", .str "a.jpg"), ("id", .num 1)]])
  else if s = "good2" then
    some (.arr [.obj [("name", .str "a.jpg"), ("id", .num 1)],
                .obj [("name", .str "b.jpg"), ("id", .num 2)]])
  else if s = "arr1" then some (.arr [.num 1])
  else none

/-- The concrete scenario of the spec: `bulk/a.jpg` exists with one face at
distance 0.2 from the uploaded face, `bulk/b.jpg` is absent. -/
def envA : Env :=
  { jsonParse := jpA
    fs0 := ["/app/bulk/a.jpg"]
    saveExc := fun _ => none
    loadEnc := fun p =>
      if p = "/app/bulk/a.jpg" then .ok [10]
      else if p = "/app/single/face1.jpg" then .ok [1]
      else .error "unreadable"
    moveExc := fun _ _ => none
    compareFaces := fun _ _ _ => true
    faceDistance := fun _ _ => ⟨2, 10⟩ }

def reqA : Request := ⟨some ⟨"face1.jpg"⟩, some "good1"⟩

/-- Variant: the uploaded image has no detectable face. -/
def envB : Env := { envA with loadEnc := fun _ => .ok [] }

/-- Variant: empty filesystem, no face in any image — used to watch where a
traversal filename gets saved. -/
def envC9 : Env := { envB with fs0 := [] }

/-- Variant: the bulk face sits at distance 0.39999, just under the 0.4
gate. -/
def envC10 : Env := { envA with faceDistance := fun _ _ => ⟨39999, 100000⟩ }

/-- The four messages a validation failure can return with status 400. -/
def validationMessages : List String :=
  ["File and JSON data are required", "No selected file",
   "Invalid file type. Only .jpg, .jpeg, and .png are allowed.",
   "Invalid JSON data. Each entry must include \x27name\x27 and \x27id\x27 fields."]

/-! ### Bridge lemmas: `PyFloat` values as rationals -/

lemma PyFloat.lt_iff_toRat (a b : PyFloat) : a.lt b ↔ a.toRat < b.toRat := by
  unfold PyFloat.lt PyFloat.toRat
  rw [div_lt_div_iff₀ (by exact_mod_cast a.den.pos) (by exact_mod_cast b.den.pos)]
  constructor <;> intro h <;> exact_mod_cast h

lemma PyFloat.toRat_ofInt (n : ℤ) : (PyFloat.ofInt n).toRat = (n : ℚ) := by
  unfold PyFloat.ofInt PyFloat.toRat
  norm_num

lemma PyFloat.toRat_mul (a b : PyFloat) : (a.mul b).toRat = a.toRat * b.toRat := by
  unfold PyFloat.mul PyFloat.toRat
  push_cast [PNat.mul_coe]
  rw [div_mul_div_comm]

lemma PyFloat.toRat_sub (a b : PyFloat) : (a.sub b).toRat = a.toRat - b.toRat := by
  unfold PyFloat.sub PyFloat.toRat
  have ha : (((a.den : ℕ)) : ℚ) ≠ 0 := by
    exact_mod_cast a.den.ne_zero
  have hb : (((b.den : ℕ)) : ℚ) ≠ 0 := by
    exact_mod_cast b.den.ne_zero
  push_cast [PNat.mul_coe]
  field_simp
  ring

lemma PyFloat.toRat_max (a b : PyFloat) : (PyFloat.max a b).toRat = a.toRat ⊔ b.toRat := by
  unfold PyFloat.max
  split
  · next h => exact (max_eq_right (le_of_lt ((PyFloat.lt_iff_toRat a b).mp h))).symm
  · next h =>
    have : ¬ a.toRat < b.toRat := fun hc => h ((PyFloat.lt_iff_toRat a b).mpr hc)
    exact (max_eq_left (le_of_not_lt this)).symm

lemma toRat_confidenceOf (d : PyFloat) :
    (confidenceOf d).toRat = (0 : ℚ) ⊔ (1 - d.toRat) * 100 := by
  unfold confidenceOf
  rw [PyFloat.toRat_mul, PyFloat.toRat_max, PyFloat.toRat_sub, PyFloat.toRat_ofInt,
    PyFloat.toRat_ofInt, PyFloat.toRat_ofInt]
  push_cast
  rcases le_total (1 - d.toRat) 0 with h | h
  · rw [max_eq_left h, max_eq_left (by nlinarith)]
    try norm_num
  · rw [max_eq_right h, max_eq_right (by nlinarith)]
    try norm_num

lemma toRat_distance_threshold : distance_threshold.toRat = 0.4 := by
  norm_num [distance_threshold, PyFloat.toRat]

lemma toRat_tolerance : tolerance.toRat = 0.5 := by
  norm_num [tolerance, PyFloat.toRat]

/-! ### Membership in the nested matching loops -/

lemma mem_matchEntry_iff (env : Env) (image_file : String) (image_id : Json)
    (i j s b : ℕ) (r : MatchResult) :
    r ∈ matchEntry env image_file image_id i j s b ↔
      env.compareFaces b s tolerance = true ∧ (env.faceDistance b s).lt distance_threshold ∧
        r = mkResult env image_file image_id i j s b := by
  unfold matchEntry
  by_cases hc : env.compareFaces b s tolerance = true ∧ (env.faceDistance b s).lt distance_threshold
  · simp [hc, hc.1, hc.2]
  · simp only [hc, if_false, List.not_mem_nil, false_iff]
    tauto

lemma mem_bulkLoop_iff (env : Env) (image_file : String) (image_id : Json) (i s : ℕ) :
    ∀ (bs : List ℕ) (j : ℕ) (r : MatchResult),
      r ∈ bulkLoop env image_file image_id i s j bs ↔
        ∃ k b, bs.get? k = some b ∧ env.compareFaces b s tolerance = true ∧
          (env.faceDistance b s).lt distance_threshold ∧
          r = mkResult env image_file image_id i (j + k) s b := by
  intro bs
  induction bs with
  | nil => intro j r; simp [bulkLoop]
  | cons b bs ih =>
    intro j r
    simp only [bulkLoop, List.mem_append, mem_matchEntry_iff, ih]
    constructor
    · rintro (⟨h1, h2, h3⟩ | ⟨k, b2, h1, h2, h3, h4⟩)
      · exact ⟨0, b, rfl, h1, h2, by simpa using h3⟩
      · refine ⟨k + 1, b2, by simpa using h1, h2, h3, ?_⟩
        have he : j + (k + 1) = j + 1 + k := by omega
        rw [he]; exact h4
    · rintro ⟨k, b2, h1, h2, h3, h4⟩
      cases k with
      | zero =>
        obtain rfl : b = b2 := by simpa using h1
        exact Or.inl ⟨h2, h3, by simpa using h4⟩
      | succ k =>
        refine Or.inr ⟨k, b2, by simpa using h1, h2, h3, ?_⟩
        have he : j + 1 + k = j + (k + 1) := by omega
        rw [he]; exact h4

lemma mem_singleLoop_iff (env : Env) (image_file : String) (image_id : Json)
    (bulks : List ℕ) :
    ∀ (ss : List ℕ) (i : ℕ) (r : MatchResult),
      r ∈ singleLoop env image_file image_id bulks i ss ↔
        ∃ k s j b, ss.get? k = some s ∧ bulks.get? j = some b ∧
          env.compareFaces b s tolerance = true ∧
          (env.faceDistance b s).lt distance_threshold ∧
          r = mkResult env image_file image_id (i + k) j s b := by
  intro ss
  induction ss with
  | nil => intro i r; simp [singleLoop]
  | cons s ss ih =>
    intro i r
    simp only [singleLoop, List.mem_append, mem_bulkLoop_iff, ih]
    constructor
    · rintro (⟨j, b, h1, h2, h3, h4⟩ | ⟨k, s2, j, b, h1, h2, h3, h4, h5⟩)
      · exact ⟨0, s, j, b, rfl, h1, h2, h3, by simpa using h4⟩
      · refine ⟨k + 1, s2, j, b, by simpa using h1, h2, h3, h4, ?_⟩
        have he : i + (k + 1) = i + 1 + k := by omega
        rw [he]; exact h5
    · rintro ⟨k, s2, j, b, h1, h2, h3, h4, h5⟩
      cases k with
      | zero =>
        obtain rfl : s = s2 := by simpa using h1
        refine Or.inl ⟨j, b, h2, h3, h4, ?_⟩
        simpa using h5
      | succ k =>
        refine Or.inr ⟨k, s2, j, b, by simpa using h1, h2, h3, h4, ?_⟩
        have he : i + 1 + k = i + (k + 1) := by omega
        rw [he]; exact h5

lemma mem_pairResults_iff (env : Env) (image_file : String) (image_id : Json)
    (singles bulks : List ℕ) (r : MatchResult) :
    r ∈ pairResults env image_file image_id singles bulks ↔
      ∃ i j s b, singles.get? i = some s ∧ bulks.get? j = some b ∧
        env.compareFaces b s tolerance = true ∧
        (env.faceDistance b s).lt distance_threshold ∧
        r = mkResult env image_file image_id i j s b := by
  unfold pairResults
  rw [mem_singleLoop_iff]
  constructor
  · rintro ⟨k, s, j, b, h1, h2, h3, h4, h5⟩
    exact ⟨k, j, s, b, h1, h2, h3, h4, by simpa using h5⟩
  · rintro ⟨i, j, s, b, h1, h2, h3, h4, h5⟩
    exact ⟨i, s, j, b, h1, h2, h3, h4, by simpa using h5⟩

/-! ### The candidate loop: soft skips and result provenance -/

/-- A candidate whose bulk file is missing, unreadable, or faceless
contributes nothing: dropping it from the list leaves the outcome of the loop
unchanged. -/
lemma candidateLoop_skip (env : Env) (fs : List String) (name : String) (image_id : Json)
    (hskip : fsContains fs (bulkImagePath name) = false ∨
      (∃ e, env.loadEnc (bulkImagePath name) = .error e) ∨
      env.loadEnc (bulkImagePath name) = .ok []) :
    ∀ (singles : List ℕ) (pre post : List (Json × Json)),
      candidateLoop env fs singles (pre ++ (Json.str name, image_id) :: post) =
        candidateLoop env fs singles (pre ++ post) := by
  intro singles pre
  induction pre with
  | nil =>
    intro post
    simp only [List.nil_append]
    rcases hskip with h | ⟨e, h⟩ | h
    · simp [candidateLoop, h]
    · by_cases hc : fsContains fs (bulkImagePath name) = true
      · simp [candidateLoop, hc, h]
      · simp [candidateLoop, hc]
    · by_cases hc : fsContains fs (bulkImagePath name) = true
      · simp [candidateLoop, hc, h]
      · simp [candidateLoop, hc]
  | cons hd pre ih =>
    intro post
    obtain ⟨n0, id0⟩ := hd
    cases n0 <;> simp [candidateLoop, ih]

/-- Every result an `ok` run of the candidate loop returns comes from the
nested per-pair loops of some candidate. -/
lemma candidateLoop_ok_mem (env : Env) (fs : List String) (singles : List ℕ) :
    ∀ (sel : List (Json × Json)) (rs : List MatchResult),
      candidateLoop env fs singles sel = .ok rs →
      ∀ r ∈ rs, ∃ image_file image_id bulks,
        r ∈ pairResults env image_file image_id singles bulks := by
  intro sel
  induction sel with
  | nil =>
    intro rs h r hr
    simp only [candidateLoop] at h
    cases h
    simp at hr
  | cons hd rest ih =>
    intro rs h r hr
    obtain ⟨n0, id0⟩ := hd
    cases n0 with
    | str image_file =>
      simp only [candidateLoop] at h
      by_cases hc : fsContains fs (bulkImagePath image_file) = true
      · rw [if_pos hc] at h
        cases hl : env.loadEnc (bulkImagePath image_file) with
        | error e => simp only [hl] at h; exact ih rs h r hr
        | ok bulks =>
          simp only [hl] at h
          by_cases hb : bulks.isEmpty
          · rw [if_pos hb] at h; exact ih rs h r hr
          · rw [if_neg hb] at h
            cases hrest : candidateLoop env fs singles rest with
            | error e => simp only [hrest] at h; exact Except.noConfusion h
            | ok rs2 =>
              simp only [hrest, Except.ok.injEq] at h
              subst h
              rcases List.mem_append.mp hr with h1 | h2
              · exact ⟨image_file, id0, bulks, h1⟩
              · exact ih rs2 hrest r h2
      · rw [if_neg hc] at h; exact ih rs h r hr
    | null => simp only [candidateLoop] at h; cases h
    | bool b => simp only [candidateLoop] at h; cases h
    | num q => simp only [candidateLoop] at h; cases h
    | arr xs => simp only [candidateLoop] at h; cases h
    | obj es => simp only [candidateLoop] at h; cases h

/-! ### Validation and the shape of post-validation responses -/

/-- When validation fails, the handler returns the validation response and
leaves the filesystem untouched. -/
lemma validate_error_run (env : Env) (req : Request) (r : Response)
    (h : validate env.jsonParse req = .error r) :
    upload_and_match env req = (r, env.fs0) := by
  unfold upload_and_match
  rw [h]

/-- Validation never produces a success response. -/
lemma validate_error_not_success (p : String → Option Json) (req : Request) (r : Response)
    (h : validate p req = .error r) :
    ∀ a b c, r ≠ Response.success a b c := by
  intro a b c
  unfold validate at h
  rcases req with ⟨_ | f, _ | jd⟩ <;> simp only at h
  · cases h; intro hc; cases hc
  · cases h; intro hc; cases hc
  · cases h; intro hc; cases hc
  · by_cases h0 : f.filename = ""
    · rw [if_pos h0] at h; cases h; intro hc; cases hc
    · rw [if_neg h0] at h
      by_cases h1 : allowedExt f.filename = true
      · rw [if_neg (by simp [h1])] at h
        cases hp : parseSelected p jd with
        | error e =>
          rw [hp] at h
          cases e <;> simp only at h <;> cases h <;> intro hc <;> cases hc
        | ok sel => rw [hp] at h; cases h
      · rw [if_pos (by simp [h1])] at h; cases h; intro hc; cases hc

/-- Every response the post-validation stage can produce: one of the three
500s, the no-face 400, the uncaught-exception 500, or a success. -/
lemma processValidated_shape (env : Env) (f : UploadedFile) (sel : List (Json × Json)) :
    (∃ s, (processValidated env f sel).1 = Response.error 500 s) ∨
    (processValidated env f sel).1 = Response.error 400 "No face detected in the uploaded image" ∨
    (processValidated env f sel).1 = Response.internalError ∨
    (∃ m ml uf, (processValidated env f sel).1 = Response.success m ml uf) := by
  unfold processValidated
  split
  · exact Or.inl ⟨_, rfl⟩
  · split
    · exact Or.inl ⟨_, rfl⟩
    · split
      · exact Or.inr (Or.inl rfl)
      · split
        · exact Or.inr (Or.inr (Or.inl rfl))
        · split
          · exact Or.inl ⟨_, rfl⟩
          · split
            · exact Or.inr (Or.inr (Or.inr ⟨_, _, _, rfl⟩))
            · exact Or.inr (Or.inr (Or.inr ⟨_, _, _, rfl⟩))

/-- A 200 response carrying a `matches` list got that list from an `ok` run
of the candidate loop on the encodings of the uploaded image. -/
lemma success_inversion (env : Env) (req : Request) (msg : String)
    (ms : List MatchResult) (uf : String)
    (h : (upload_and_match env req).1 = Response.success msg (some ms) uf) :
    ∃ f sel encs, validate env.jsonParse req = .ok (f, sel) ∧
      env.loadEnc (singleImagePath f.filename) = .ok encs ∧
      candidateLoop env (fsAdd env.fs0 (singleImagePath f.filename)) encs sel = .ok ms := by
  unfold upload_and_match at h
  cases hv : validate env.jsonParse req with
  | error r =>
    simp only [hv] at h
    exact absurd h (validate_error_not_success env.jsonParse req r hv msg (some ms) uf)
  | ok fsel =>
    obtain ⟨f, sel⟩ := fsel
    simp only [hv] at h
    unfold processValidated at h
    cases hs : env.saveExc (singleImagePath f.filename) with
    | some e => simp only [hs] at h; exact Response.noConfusion h
    | none =>
      simp only [hs] at h
      cases hl : env.loadEnc (singleImagePath f.filename) with
      | error e => simp only [hl] at h; exact Response.noConfusion h
      | ok encs =>
        simp only [hl] at h
        by_cases he : encs.isEmpty
        · rw [if_pos he] at h; cases h
        · rw [if_neg he] at h
          cases hcl : candidateLoop env (fsAdd env.fs0 (singleImagePath f.filename)) encs sel with
          | error e => simp only [hcl] at h; exact Response.noConfusion h
          | ok results =>
            simp only [hcl] at h
            cases hm : env.moveExc (singleImagePath f.filename) (processedImagePath f.filename) with
            | some e => simp only [hm] at h; exact Response.noConfusion h
            | none =>
              simp only [hm] at h
              by_cases hr : results.isEmpty
              · rw [if_pos hr] at h
                simp only [Prod.fst] at h
                cases h
              · rw [if_neg hr] at h
                simp only [Prod.fst] at h
                obtain ⟨-, h2, -⟩ := Response.success.inj h
                obtain rfl : results = ms := Option.some.inj h2
                exact ⟨f, sel, encs, rfl, hl, hcl⟩

/-- The function `validate` on a request with both parts present, unfolded. -/
lemma validate_some (p : String → Option Json) (f : UploadedFile) (jd : String) :
    validate p ⟨some f, some jd⟩ =
      (if f.filename = "" then .error (.error 400 "No selected file")
       else if ¬ allowedExt f.filename = true then
         .error (.error 400 "Invalid file type. Only .jpg, .jpeg, and .png are allowed.")
       else
         match parseSelected p jd with
         | .error .typeError => .error .internalError
         | .error _ =>
           .error (.error 400
             "Invalid JSON data. Each entry must include \x27name\x27 and \x27id\x27 fields.")
         | .ok selected_photos => .ok (f, selected_photos)) := rfl

lemma fsContains_fsAdd_self (fs : List String) (p : String) :
    fsContains (fsAdd fs p) p = true := by
  unfold fsAdd
  by_cases h : fsContains fs p = true
  · rw [if_pos h]; exact h
  · rw [if_neg h]
    unfold fsContains
    simp

/-! ### The claims -/

/-- C1: a MatchResult is recorded for uploaded-face `i` and bulk-face `j`
if and only if the library comparison at tolerance 0.5 holds AND the
numeric face distance is strictly below 0.4; the library boolean alone never
suffices. -/
theorem claim_C1_match_recorded_iff (env : Env) (image_file : String) (image_id : Json)
    (singles bulks : List ℕ) (r : MatchResult) :
    (tolerance.toRat = 0.5 ∧ distance_threshold.toRat = 0.4) ∧
    (r ∈ pairResults env image_file image_id singles bulks ↔
      ∃ i j s b, singles.get? i = some s ∧ bulks.get? j = some b ∧
        env.compareFaces b s tolerance = true ∧
        (env.faceDistance b s).toRat < distance_threshold.toRat ∧
        r = mkResult env image_file image_id i j s b) := by
  refine ⟨⟨toRat_tolerance, toRat_distance_threshold⟩, ?_⟩
  rw [mem_pairResults_iff]
  apply exists_congr; intro i
  apply exists_congr; intro j
  apply exists_congr; intro s
  apply exists_congr; intro b
  rw [PyFloat.lt_iff_toRat]

/-- Witness for C1 at the concrete scenario: distance 0.2 with a positive
library comparison records the pair (0, 0). -/
theorem claim_C1_witness :
    mkResult envA "a.jpg" (Json.num 1) 0 0 1 10 ∈
      pairResults envA "a.jpg" (Json.num 1) [1] [10] :=
  ((claim_C1_match_recorded_iff envA "a.jpg" (Json.num 1) [1] [10]
      (mkResult envA "a.jpg" (Json.num 1) 0 0 1 10)).2).mpr
    ⟨0, 0, 1, 10, rfl, rfl, rfl,
      (PyFloat.lt_iff_toRat (envA.faceDistance 10 1) distance_threshold).mp (by decide), rfl⟩

/-- C2: every recorded MatchResult carries
`confidence = max(0, 1.0 - distance) * 100` rendered as a two-decimal
percentage string of its own `face_distance` (which is the computed
distance); concretely, a match at distance 0.2 is reported with confidence
"80.00 %" and face_distance 0.2. -/
theorem claim_C2_confidence_formula :
    (∀ (env : Env) (req : Request) (msg : String) (ms : List MatchResult) (uf : String),
        (upload_and_match env req).1 = Response.success msg (some ms) uf →
        ∀ r ∈ ms, r.confidence = formatFixed2 (confidenceOf r.face_distance) ++ " %") ∧
    (upload_and_match envA reqA).1 = Response.success "Success! Matches found."
      (some [{ uploaded_face_index := 0, matched_face_index_in_bulk := 0,
               matched_file := "a.jpg", matched_id := Json.num 1,
               confidence := "80.00 %", face_distance := ⟨2, 10⟩ }]) "face1.jpg" ∧
    PyFloat.toRat ⟨2, 10⟩ = 0.2 := by
  refine ⟨?_, rfl, by norm_num [PyFloat.toRat]⟩
  intro env req msg ms uf h r hr
  obtain ⟨f, sel, encs, hv, hl, hcl⟩ := success_inversion env req msg ms uf h
  obtain ⟨nm, image_id, bulks, hp⟩ :=
    candidateLoop_ok_mem env (fsAdd env.fs0 (singleImagePath f.filename)) encs sel ms hcl r hr
  rw [mem_pairResults_iff] at hp
  obtain ⟨i, j, s, b, -, -, -, -, rfl⟩ := hp
  simp [mkResult]

/-- Witness for C2 on the recorded result of the concrete scenario. -/
theorem claim_C2_witness :
    (mkResult envA "a.jpg" (Json.num 1) 0 0 1 10).confidence =
      formatFixed2 (confidenceOf (mkResult envA "a.jpg" (Json.num 1) 0 0 1 10).face_distance)
        ++ " %" :=
  claim_C2_confidence_formula.1 envA reqA "Success! Matches found."
    [mkResult envA "a.jpg" (Json.num 1) 0 0 1 10] "face1.jpg" rfl
    (mkResult envA "a.jpg" (Json.num 1) 0 0 1 10) (by simp)

/-- C3 counterexample: `json_data` parsing to the array `[1]` — an array
whose entry is not an object — does NOT yield the 400 "Invalid JSON data"
response; the dict comprehension raises an uncaught `TypeError`, which
surfaces as the framework internal 500. -/
theorem claim_C3_counterexample :
    envA.jsonParse "arr1" = some (Json.arr [Json.num 1]) ∧
    (upload_and_match envA ⟨some ⟨"face1.jpg"⟩, some "arr1"⟩).1 = Response.internalError ∧
    ¬ (upload_and_match envA ⟨some ⟨"face1.jpg"⟩, some "arr1"⟩).1 =
        Response.error 400
          "Invalid JSON data. Each entry must include \x27name\x27 and \x27id\x27 fields." := by
  refine ⟨rfl, rfl, ?_⟩
  intro h
  have h1 : (upload_and_match envA ⟨some ⟨"face1.jpg"⟩, some "arr1"⟩).1 =
      Response.internalError := rfl
  rw [h1] at h
  exact Response.noConfusion h

/-- C3 amended: with both parts present, a nonempty filename and an accepted
extension, the handler returns 400 "Invalid JSON data…" exactly when the
parse raises `JSONDecodeError` (not valid JSON) or `KeyError` (an entry that
is an object missing `name` or `id`); when the comprehension raises
`TypeError` instead (non-array value, or an array entry that is not an
object), the exception is uncaught and the response is the framework 500,
not a 400. -/
theorem claim_C3_amended (env : Env) (f : UploadedFile) (jd : String)
    (hfn : ¬ f.filename = "") (hext : allowedExt f.filename = true) :
    ((parseSelected env.jsonParse jd = .error .jsonDecodeError ∨
        parseSelected env.jsonParse jd = .error .keyError) →
      (upload_and_match env ⟨some f, some jd⟩).1 =
        Response.error 400
          "Invalid JSON data. Each entry must include \x27name\x27 and \x27id\x27 fields.") ∧
    (parseSelected env.jsonParse jd = .error .typeError →
      (upload_and_match env ⟨some f, some jd⟩).1 = Response.internalError) := by
  constructor
  · intro h
    have hv : validate env.jsonParse ⟨some f, some jd⟩ =
        .error (.error 400
          "Invalid JSON data. Each entry must include \x27name\x27 and \x27id\x27 fields.") := by
      rw [validate_some, if_neg hfn, if_neg (by simp [hext])]
      rcases h with h | h <;> rw [h]
    rw [validate_error_run env _ _ hv]
  · intro h
    have hv : validate env.jsonParse ⟨some f, some jd⟩ = .error .internalError := by
      rw [validate_some, if_neg hfn, if_neg (by simp [hext]), h]
    rw [validate_error_run env _ _ hv]

/-- Witness for C3 (amended): an unparsable `json_data` yields the 400. -/
theorem claim_C3_witness :
    (upload_and_match envA ⟨some ⟨"face1.jpg"⟩, some "nope"⟩).1 =
      Response.error 400
        "Invalid JSON data. Each entry must include \x27name\x27 and \x27id\x27 fields." :=
  (claim_C3_amended envA ⟨"face1.jpg"⟩ "nope" (by decide) (by decide)).1 (Or.inl rfl)

/-- C4: a validated request whose uploaded image yields zero face encodings
gets the 400 "No face detected in the uploaded image", and the final
filesystem is the staging area still holding `single/<filename>` — nothing
is moved to `processed/`. -/
theorem claim_C4_no_face (env : Env) (f : UploadedFile) (jd : String)
    (sel : List (Json × Json))
    (hfn : ¬ f.filename = "") (hext : allowedExt f.filename = true)
    (hp : parseSelected env.jsonParse jd = .ok sel)
    (hsave : env.saveExc (singleImagePath f.filename) = none)
    (hload : env.loadEnc (singleImagePath f.filename) = .ok []) :
    upload_and_match env ⟨some f, some jd⟩ =
      (Response.error 400 "No face detected in the uploaded image",
        fsAdd env.fs0 (singleImagePath f.filename)) ∧
    fsContains (fsAdd env.fs0 (singleImagePath f.filename)) (singleImagePath f.filename) = true := by
  have hv : validate env.jsonParse ⟨some f, some jd⟩ = .ok (f, sel) := by
    rw [validate_some, if_neg hfn, if_neg (by simp [hext]), hp]
  refine ⟨?_, fsContains_fsAdd_self env.fs0 (singleImagePath f.filename)⟩
  simp only [upload_and_match, hv]
  unfold processValidated
  simp only [hsave, hload, List.isEmpty_nil, if_true]

/-- Witness for C4: the concrete no-face scenario. -/
theorem claim_C4_witness :
    upload_and_match envB ⟨some ⟨"face1.jpg"⟩, some "good1"⟩ =
      (Response.error 400 "No face detected in the uploaded image",
        fsAdd envB.fs0 (singleImagePath "face1.jpg")) ∧
    fsContains (fsAdd envB.fs0 (singleImagePath "face1.jpg")) (singleImagePath "face1.jpg")
      = true :=
  claim_C4_no_face envB ⟨"face1.jpg"⟩ "good1" [(Json.str "a.jpg", Json.num 1)]
    (by decide) (by decide) rfl rfl rfl

/-- C5: once the candidate loop completes, the upload is moved from
`single/` to `processed/` whether or not anything matched; a failing move
yields the 500 "Failed to move processed image", otherwise the response is
200 "Success! Matches found." with the matches when the result list is
nonempty and 200 "No match found" when it is empty. -/
theorem claim_C5_move_then_respond (env : Env) (f : UploadedFile) (jd : String)
    (sel : List (Json × Json)) (encs : List ℕ) (results : List MatchResult)
    (hfn : ¬ f.filename = "") (hext : allowedExt f.filename = true)
    (hp : parseSelected env.jsonParse jd = .ok sel)
    (hsave : env.saveExc (singleImagePath f.filename) = none)
    (hload : env.loadEnc (singleImagePath f.filename) = .ok encs)
    (hne : ¬ encs.isEmpty = true)
    (hcl : candidateLoop env (fsAdd env.fs0 (singleImagePath f.filename)) encs sel
      = .ok results) :
    (∀ e, env.moveExc (singleImagePath f.filename) (processedImagePath f.filename) = some e →
      upload_and_match env ⟨some f, some jd⟩ =
        (Response.error 500 ("Failed to move processed image: " ++ e),
          fsAdd env.fs0 (singleImagePath f.filename))) ∧
    (env.moveExc (singleImagePath f.filename) (processedImagePath f.filename) = none →
      (upload_and_match env ⟨some f, some jd⟩).2 =
        fsMove (fsAdd env.fs0 (singleImagePath f.filename)) (singleImagePath f.filename)
          (processedImagePath f.filename) ∧
      (results.isEmpty = true →
        (upload_and_match env ⟨some f, some jd⟩).1 =
          Response.success "No match found" none f.filename) ∧
      (¬ results.isEmpty = true →
        (upload_and_match env ⟨some f, some jd⟩).1 =
          Response.success "Success! Matches found." (some results) f.filename)) := by
  have hv : validate env.jsonParse ⟨some f, some jd⟩ = .ok (f, sel) := by
    rw [validate_some, if_neg hfn, if_neg (by simp [hext]), hp]
  have hrun : upload_and_match env ⟨some f, some jd⟩ =
      (match env.moveExc (singleImagePath f.filename) (processedImagePath f.filename) with
       | some e =>
         (Response.error 500 ("Failed to move processed image: " ++ e),
           fsAdd env.fs0 (singleImagePath f.filename))
       | none =>
         if results.isEmpty = true then
           (Response.success "No match found" none f.filename,
             fsMove (fsAdd env.fs0 (singleImagePath f.filename)) (singleImagePath f.filename)
               (processedImagePath f.filename))
         else
           (Response.success "Success! Matches found." (some results) f.filename,
             fsMove (fsAdd env.fs0 (singleImagePath f.filename)) (singleImagePath f.filename)
               (processedImagePath f.filename))) := by
    simp only [upload_and_match, hv]
    unfold processValidated
    simp only [hsave, hload, if_neg hne, hcl]
  constructor
  · intro e he
    rw [hrun]
    simp only [he]
  · intro hnone
    rw [hrun]
    simp only [hnone]
    by_cases hre : results.isEmpty = true
    · rw [if_pos hre]
      exact ⟨rfl, fun _ => rfl, fun hc => absurd hre hc⟩
    · rw [if_neg hre]
      exact ⟨rfl, fun hc => absurd hc hre, fun _ => rfl⟩

/-- Witness for C5 on the concrete matching scenario: the move succeeds and
the response is the success message with the single recorded match. -/
theorem claim_C5_witness :
    (upload_and_match envA reqA).2 =
      fsMove (fsAdd envA.fs0 (singleImagePath "face1.jpg")) (singleImagePath "face1.jpg")
        (processedImagePath "face1.jpg") ∧
    (upload_and_match envA reqA).1 =
      Response.success "Success! Matches found."
        (some [mkResult envA "a.jpg" (Json.num 1) 0 0 1 10]) "face1.jpg" := by
  have h := claim_C5_move_then_respond envA ⟨"face1.jpg"⟩ "good1"
    [(Json.str "a.jpg", Json.num 1)] [1] [mkResult envA "a.jpg" (Json.num 1) 0 0 1 10]
    (by decide) (by decide) rfl rfl rfl (by decide) rfl
  obtain ⟨hfs, -, hsucc⟩ := h.2 rfl
  exact ⟨hfs, hsucc (by decide)⟩

/-- C6: a candidate whose bulk file is missing on disk, fails to load/encode,
or contains no face is silently skipped: a request listing it produces
exactly the same response and filesystem as the same request without it —
the failure never aborts the request and never shows in the response. -/
theorem claim_C6_soft_failures_skip (env : Env) (f : UploadedFile) (jd1 jd2 : String)
    (pre post : List (Json × Json)) (name : String) (image_id : Json)
    (hfn : ¬ f.filename = "") (hext : allowedExt f.filename = true)
    (h1 : parseSelected env.jsonParse jd1 = .ok (pre ++ (Json.str name, image_id) :: post))
    (h2 : parseSelected env.jsonParse jd2 = .ok (pre ++ post))
    (hskip : fsContains (fsAdd env.fs0 (singleImagePath f.filename)) (bulkImagePath name)
        = false ∨
      (∃ e, env.loadEnc (bulkImagePath name) = .error e) ∨
      env.loadEnc (bulkImagePath name) = .ok []) :
    upload_and_match env ⟨some f, some jd1⟩ = upload_and_match env ⟨some f, some jd2⟩ := by
  have hv1 : validate env.jsonParse ⟨some f, some jd1⟩ =
      .ok (f, pre ++ (Json.str name, image_id) :: post) := by
    rw [validate_some, if_neg hfn, if_neg (by simp [hext]), h1]
  have hv2 : validate env.jsonParse ⟨some f, some jd2⟩ = .ok (f, pre ++ post) := by
    rw [validate_some, if_neg hfn, if_neg (by simp [hext]), h2]
  simp only [upload_and_match, hv1, hv2]
  unfold processValidated
  cases hs : env.saveExc (singleImagePath f.filename) with
  | some e => rfl
  | none =>
    cases hl : env.loadEnc (singleImagePath f.filename) with
    | error e => rfl
    | ok encs =>
      simp only
      by_cases he : encs.isEmpty = true
      · rw [if_pos he, if_pos he]
      · rw [if_neg he, if_neg he,
          candidateLoop_skip env (fsAdd env.fs0 (singleImagePath f.filename)) name image_id
            hskip encs pre post]

/-- Witness for C6: listing the absent `b.jpg` next to `a.jpg` gives the
same outcome as listing `a.jpg` alone. -/
theorem claim_C6_witness :
    upload_and_match envA ⟨some ⟨"face1.jpg"⟩, some "good2"⟩ =
      upload_and_match envA ⟨some ⟨"face1.jpg"⟩, some "good1"⟩ :=
  claim_C6_soft_failures_skip envA ⟨"face1.jpg"⟩ "good2" "good1"
    [(Json.str "a.jpg", Json.num 1)] [] "b.jpg" (Json.num 2)
    (by decide) (by decide) rfl rfl (Or.inl (by decide))

/-- C7: a request failing any of the four validation checks gets a 400 and
the filesystem is left exactly as it was — no save, no move. -/
theorem claim_C7_validation_no_write (env : Env) (req : Request)
    (h : req.file = none ∨ req.json_data = none ∨
      ∃ f jd, req.file = some f ∧ req.json_data = some jd ∧
        (f.filename = "" ∨ allowedExt f.filename = false ∨
          parseSelected env.jsonParse jd = .error .jsonDecodeError ∨
          parseSelected env.jsonParse jd = .error .keyError)) :
    (∃ m, (upload_and_match env req).1 = Response.error 400 m) ∧
    (upload_and_match env req).2 = env.fs0 := by
  obtain ⟨rf, rj⟩ := req
  have hex : ∃ m, validate env.jsonParse ⟨rf, rj⟩ = .error (.error 400 m) := by
    rcases h with h | h | ⟨f, jd, hf, hj, hc⟩
    · obtain rfl : rf = none := h
      exact ⟨_, rfl⟩
    · obtain rfl : rj = none := h
      cases rf with
      | none => exact ⟨_, rfl⟩
      | some f => exact ⟨_, rfl⟩
    · obtain rfl : rf = some f := hf
      obtain rfl : rj = some jd := hj
      rw [validate_some]
      by_cases h0 : f.filename = ""
      · rw [if_pos h0]; exact ⟨_, rfl⟩
      · rw [if_neg h0]
        by_cases h1 : allowedExt f.filename = true
        · rw [if_neg (by simp [h1])]
          rcases hc with hc | hc | hc | hc
          · exact absurd hc h0
          · rw [h1] at hc; cases hc
          · rw [hc]; exact ⟨_, rfl⟩
          · rw [hc]; exact ⟨_, rfl⟩
        · rw [if_pos (by simp [h1])]; exact ⟨_, rfl⟩
  obtain ⟨m, hv⟩ := hex
  rw [validate_error_run env _ _ hv]
  exact ⟨⟨m, rfl⟩, rfl⟩

/-- Witness for C7: both parts missing. -/
theorem claim_C7_witness :
    (∃ m, (upload_and_match envA ⟨none, none⟩).1 = Response.error 400 m) ∧
    (upload_and_match envA ⟨none, none⟩).2 = envA.fs0 :=
  claim_C7_validation_no_write envA ⟨none, none⟩ (Or.inl rfl)

/-- C8: validation is deterministic in the request and the JSON parser
alone: if a request draws one of the four validation 400s under one
environment, it draws the identical response under any environment with the
same parser, whatever its filesystem or other state. -/
theorem claim_C8_validation_deterministic (e1 e2 : Env) (req : Request) (m : String)
    (hp : e1.jsonParse = e2.jsonParse)
    (hm : m ∈ validationMessages)
    (h : (upload_and_match e1 req).1 = Response.error 400 m) :
    (upload_and_match e2 req).1 = Response.error 400 m := by
  cases hv : validate e1.jsonParse req with
  | error r =>
    rw [validate_error_run e1 req r hv] at h
    replace h : r = Response.error 400 m := h
    have hv2 : validate e2.jsonParse req = .error r := by rw [← hp]; exact hv
    rw [validate_error_run e2 req r hv2]
    exact h
  | ok fsel =>
    obtain ⟨f, sel⟩ := fsel
    have h1 : upload_and_match e1 req = processValidated e1 f sel := by
      simp only [upload_and_match, hv]
    rw [h1] at h
    rcases processValidated_shape e1 f sel with ⟨s, hsh⟩ | hsh | hsh | ⟨a, b, c, hsh⟩
    · rw [hsh] at h
      obtain ⟨h5, -⟩ := Response.error.inj h
      exact absurd h5 (by decide)
    · rw [hsh] at h
      obtain ⟨-, hmsg⟩ := Response.error.inj h
      rw [← hmsg] at hm
      exact absurd hm (by decide)
    · rw [hsh] at h
      exact Response.noConfusion h
    · rw [hsh] at h
      exact Response.noConfusion h

/-- Witness for C8: the same malformed request gives the same 400 on an
empty filesystem as on the seeded one. -/
theorem claim_C8_witness :
    (upload_and_match { envA with fs0 := [] } ⟨some ⟨"x.jpg"⟩, some "nope"⟩).1 =
      Response.error 400
        "Invalid JSON data. Each entry must include \x27name\x27 and \x27id\x27 fields." :=
  claim_C8_validation_deterministic envA { envA with fs0 := [] }
    ⟨some ⟨"x.jpg"⟩, some "nope"⟩ _ rfl (by decide) rfl

/-- C9: the save destination is the verbatim `os.path.join` of the `single/`
directory with the client-supplied filename — no sanitization — and the
filename `"../evil.jpg"` passes every validation check while its joined path
resolves to `/app/evil.jpg`, outside the `single/` directory; running the
handler with it indeed records that path as saved. -/
theorem claim_C9_unsanitized_save_path :
    (∀ s, singleImagePath s = joinPath SINGLE_FOLDER s) ∧
    allowedExt "../evil.jpg" = true ∧
    ¬ "../evil.jpg" = "" ∧
    singleImagePath "../evil.jpg" = "/app/single/../evil.jpg" ∧
    normalizePath (singleImagePath "../evil.jpg") = "/app/evil.jpg" ∧
    pyStartsWith (normalizePath (singleImagePath "../evil.jpg")) (SINGLE_FOLDER ++ "/")
      = false ∧
    fsContains (upload_and_match envC9 ⟨some ⟨"../evil.jpg"⟩, some "good1"⟩).2
      (singleImagePath "../evil.jpg") = true :=
  ⟨fun _ => rfl, by decide, by decide, by decide, by decide, by decide, by decide⟩

/-- C10 counterexample: with the bulk face at distance 0.39999 — inside
the 0.4 gate — the 200 response reports the match with the two-decimal
confidence string "60.00 %", so a response CAN report a confidence at
"60.00 %". -/
theorem claim_C10_counterexample :
    (upload_and_match envC10 reqA).1 =
      Response.success "Success! Matches found."
        (some [mkResult envC10 "a.jpg" (Json.num 1) 0 0 1 10]) "face1.jpg" ∧
    (mkResult envC10 "a.jpg" (Json.num 1) 0 0 1 10).confidence = "60.00 %" ∧
    (mkResult envC10 "a.jpg" (Json.num 1) 0 0 1 10).face_distance.toRat < 0.4 := by
  refine ⟨rfl, rfl, ?_⟩
  have h := (PyFloat.lt_iff_toRat (envC10.faceDistance 10 1) distance_threshold).mp (by decide)
  rwa [toRat_distance_threshold] at h

/-- C10 amended: every MatchResult in a 200 response has a face distance
strictly below 0.4, hence a numeric confidence `max(0, 1 - distance) * 100`
strictly above 60; the two-decimal confidence STRING, however, can round
down to "60.00 %" for distances just under 0.4. -/
theorem claim_C10_distance_invariant (env : Env) (req : Request) (msg : String)
    (ms : List MatchResult) (uf : String)
    (h : (upload_and_match env req).1 = Response.success msg (some ms) uf) :
    ∀ r ∈ ms, r.face_distance.toRat < 0.4 ∧
      60 < ((0 : ℚ) ⊔ (1 - r.face_distance.toRat)) * 100 := by
  intro r hr
  obtain ⟨f, sel, encs, hv, hl, hcl⟩ := success_inversion env req msg ms uf h
  obtain ⟨nm, image_id, bulks, hp⟩ :=
    candidateLoop_ok_mem env (fsAdd env.fs0 (singleImagePath f.filename)) encs sel ms hcl r hr
  rw [mem_pairResults_iff] at hp
  obtain ⟨i, j, s, b, -, -, -, hlt, rfl⟩ := hp
  simp only [mkResult]
  have hd : (env.faceDistance b s).toRat < 0.4 := by
    have hq := (PyFloat.lt_iff_toRat _ _).mp hlt
    rwa [toRat_distance_threshold] at hq
  refine ⟨hd, ?_⟩
  have h1 : (0 : ℚ) ≤ 1 - (env.faceDistance b s).toRat := by linarith
  rw [max_eq_right h1]
  nlinarith

/-- Witness for C10 (amended) on the recorded result of the concrete scenario. -/
theorem claim_C10_witness :
    (mkResult envA "a.jpg" (Json.num 1) 0 0 1 10).face_distance.toRat < 0.4 ∧
      60 < ((0 : ℚ) ⊔ (1 - (mkResult envA "a.jpg" (Json.num 1) 0 0 1 10).face_distance.toRat))
        * 100 :=
  claim_C10_distance_invariant envA reqA "Success! Matches found."
    [mkResult envA "a.jpg" (Json.num 1) 0 0 1 10] "face1.jpg" rfl
    (mkResult envA "a.jpg" (Json.num 1) 0 0 1 10) (by simp)

end FaceApp
